import Mathlib

/-
  Verification of the eco-footprint dashboard (src/main.py).

  The program's numeric values are Python floats; we model them as an
  inductive type over exact rationals plus the special values +inf, -inf
  and NaN produced by Python's float() builtin.  Parsing of form/query
  strings embeds the grammar Python's float() accepts on strings:
  optional surrounding whitespace, an optional sign, then either a
  case-insensitive "inf" / "infinity" / "nan" keyword or a decimal
  number with optional fractional part and optional exponent.
  (Digit-group underscores are not modelled.)
-/

namespace EcoFootprint

/-- A Python float value: an exact rational, or one of the special
IEEE values that float() can produce from strings. -/
inductive PyFloat where
  | finite (q : ℚ)
  | posInf
  | negInf
  | nan
deriving DecidableEq, Repr

/-- Python float addition on the modelled values. -/
def pyAdd : PyFloat → PyFloat → PyFloat
  | .nan, _ => .nan
  | _, .nan => .nan
  | .posInf, .negInf => .nan
  | .negInf, .posInf => .nan
  | .posInf, _ => .posInf
  | _, .posInf => .posInf
  | .negInf, _ => .negInf
  | _, .negInf => .negInf
  | .finite a, .finite b => .finite (a + b)

/-- Whether a Python float value is finite (not an infinity, not NaN). -/
def isFinite : PyFloat → Bool
  | .finite _ => true
  | _ => false

/-- Whitespace characters stripped by Python's float() on strings. -/
def isPySpace (c : Char) : Bool :=
  c == ' ' || c == '\t' || c == '\n' || c == '\r'

/-- Strip leading and trailing whitespace. -/
def stripWs (cs : List Char) : List Char :=
  ((cs.dropWhile isPySpace).reverse.dropWhile isPySpace).reverse

/-- Numeric value of a list of decimal digit characters. -/
def natOfDigits (ds : List Char) : ℕ :=
  ds.foldl (fun a c => 10 * a + (c.toNat - 48)) 0

/-- Parse an optional exponent part (must consume the whole rest). -/
def parseExp (m : ℚ) (cs : List Char) : Option ℚ :=
  match cs with
  | [] => some m
  | c :: rest =>
    if c == 'e' || c == 'E' then
      let (neg, rest2) :=
        match rest with
        | '+' :: r => (false, r)
        | '-' :: r => (true, r)
        | r => (false, r)
      let ds := rest2.takeWhile Char.isDigit
      let rest3 := rest2.dropWhile Char.isDigit
      if ds.isEmpty || !rest3.isEmpty then none
      else some (if neg then m / (10 : ℚ) ^ natOfDigits ds
                 else m * (10 : ℚ) ^ natOfDigits ds)
    else none

/-- Parse an unsigned decimal number (digits, optional fractional part,
optional exponent), consuming the whole input. -/
def parseNumber (cs : List Char) : Option ℚ :=
  let ip := cs.takeWhile Char.isDigit
  let rest := cs.dropWhile Char.isDigit
  match rest with
  | '.' :: rest2 =>
    let fp := rest2.takeWhile Char.isDigit
    let rest3 := rest2.dropWhile Char.isDigit
    if ip.isEmpty && fp.isEmpty then none
    else parseExp ((natOfDigits ip : ℚ)
        + (natOfDigits fp : ℚ) / (10 : ℚ) ^ fp.length) rest3
  | _ =>
    if ip.isEmpty then none else parseExp (natOfDigits ip : ℚ) rest

/-- Python's float() applied to a string: some value on success,
none when the string raises ValueError. -/
def pythonFloat (s : String) : Option PyFloat :=
  match stripWs s.data with
  | [] => none
  | cs =>
    let (neg, cs1) :=
      match cs with
      | '+' :: r => (false, r)
      | '-' :: r => (true, r)
      | r => (false, r)
    let ls := cs1.map Char.toLower
    if ls == "inf".data || ls == "infinity".data then
      some (if neg then PyFloat.negInf else PyFloat.posInf)
    else if ls == "nan".data then
      some PyFloat.nan
    else
      match parseNumber cs1 with
      | some q => some (PyFloat.finite (if neg then -q else q))
      | none => none

/-- A submitted form: each expected key either absent or a raw string,
as in Flask's request.form viewed at the three keys. -/
structure Form where
  transport : Option String
  electricity : Option String
  waste : Option String
deriving DecidableEq, Repr

/-- float(data.get(key, 0)): an absent key yields the int 0, which
converts to float 0.0; a present string is parsed by float(). -/
def getFloat (v : Option String) : Option PyFloat :=
  match v with
  | none => some (PyFloat.finite 0)
  | some s => pythonFloat s

/-- Python exceptions relevant to calculate_footprint. -/
inductive PyExc where
  | valueError
  | typeError
  | other
deriving DecidableEq, Repr

/-- float(data.get(key, 0)) as an exception-raising computation:
a failed parse raises ValueError. -/
def floatExc (v : Option String) : Except PyExc PyFloat :=
  match getFloat v with
  | some x => .ok x
  | none => .error .valueError

/-- The body of the try block of calculate_footprint: parse the three
fields in order, then total = transport + electricity + waste. -/
def footprintBody (d : Form) :
    Except PyExc (PyFloat × PyFloat × PyFloat × PyFloat) :=
  match floatExc d.transport with
  | .error e => .error e
  | .ok t =>
    match floatExc d.electricity with
    | .error e => .error e
    | .ok el =>
      match floatExc d.waste with
      | .error e => .error e
      | .ok w => .ok (t, el, w, pyAdd (pyAdd t el) w)

/-- calculate_footprint(data): runs the try block; ValueError and
TypeError are caught and turned into None; any other exception would
propagate to the caller. -/
def calculate_footprint (d : Form) :
    Except PyExc (Option (PyFloat × PyFloat × PyFloat × PyFloat)) :=
  match footprintBody d with
  | .ok r => .ok (some r)
  | .error .valueError => .ok none
  | .error .typeError => .ok none
  | .error e => .error e

/-- calculate_footprint viewed as the value returned to the index
route: the tuple on success, None on a caught parse failure. -/
def aggregate (d : Form) : Option (PyFloat × PyFloat × PyFloat × PyFloat) :=
  match calculate_footprint d with
  | .ok r => r
  | .error _ => none

/-- Response of the POST / route. -/
inductive IndexResponse where
  | formWithError (msg : String)
  | redirectToResult (t e w total : PyFloat)
deriving DecidableEq, Repr

/-- The POST branch of the index route: on None re-render the form
with "Invalid input values.", else redirect to /result with the four
values. -/
def index_post (d : Form) : IndexResponse :=
  match aggregate d with
  | none => .formWithError "Invalid input values."
  | some (t, e, w, tot) => .redirectToResult t e w tot

/-- Query parameters of GET /result, each absent or a raw string. -/
structure ResultArgs where
  transport : Option String
  electricity : Option String
  waste : Option String
  total : Option String
deriving DecidableEq, Repr

/-- categories = ['Transport', 'Electricity', 'Waste'] -/
def chartCategories : List String := ["Transport", "Electricity", "Waste"]

/-- values = [transport, electricity, waste] -/
def chartValues (t e w : PyFloat) : List PyFloat := [t, e, w]

/-- plt.bar(categories, values): the bars pair each category with its
value, in list order. -/
def makeChart (t e w : PyFloat) : List (String × PyFloat) :=
  chartCategories.zip (chartValues t e w)

/-- Response of the GET /result route. -/
inductive ResultResponse where
  | page (chart : List (String × PyFloat)) (total : PyFloat)
  | formWithError (msg : String)
deriving DecidableEq, Repr

/-- The result route: parse the four query parameters (absent ones
default to 0), build the chart and render the page; any exception in
the try block (a parse failure, or the chart generation failing, here
modelled by the chartFails flag) is caught and mapped to the form with
"Error in generating the result.". -/
def result_route (a : ResultArgs) (chartFails : Bool) : ResultResponse :=
  match getFloat a.transport, getFloat a.electricity,
        getFloat a.waste, getFloat a.total with
  | some t, some e, some w, some tot =>
    if chartFails then .formWithError "Error in generating the result."
    else .page (makeChart t e w) tot
  | _, _, _, _ => .formWithError "Error in generating the result."

/-- The total shown on a response, when one is shown. -/
def responseTotal : ResultResponse → Option PyFloat
  | .page _ t => some t
  | .formWithError _ => none

/-- One request served against the (trivial) cross-request state: the
app keeps no session or datastore, so the state is Unit and unchanged. -/
def serveResult (a : ResultArgs) (c : Bool) (s : Unit) :
    ResultResponse × Unit :=
  (result_route a c, s)

/-- The response of the n-th successive identical request. -/
def serveResultN (a : ResultArgs) (c : Bool) : ℕ → Unit → ResultResponse
  | 0, s => (serveResult a c s).1
  | n + 1, s => serveResultN a c n (serveResult a c s).2

lemma floatExc_ok {v : Option String} {x : PyFloat} (h : getFloat v = some x) :
    floatExc v = .ok x := by
  simp [floatExc, h]

lemma floatExc_err {v : Option String} (h : getFloat v = none) :
    floatExc v = .error .valueError := by
  simp [floatExc, h]

lemma footprintBody_ok {d : Form} {t e w : PyFloat}
    (ht : getFloat d.transport = some t) (he : getFloat d.electricity = some e)
    (hw : getFloat d.waste = some w) :
    footprintBody d = .ok (t, e, w, pyAdd (pyAdd t e) w) := by
  simp [footprintBody, floatExc_ok ht, floatExc_ok he, floatExc_ok hw]

lemma aggregate_of_parses (d : Form) {t e w : PyFloat}
    (ht : getFloat d.transport = some t) (he : getFloat d.electricity = some e)
    (hw : getFloat d.waste = some w) :
    aggregate d = some (t, e, w, pyAdd (pyAdd t e) w) := by
  simp [aggregate, calculate_footprint, footprintBody_ok ht he hw]

lemma aggregate_none_t {d : Form} (ht : getFloat d.transport = none) :
    aggregate d = none := by
  simp [aggregate, calculate_footprint, footprintBody, floatExc_err ht]

lemma aggregate_none_e {d : Form} (he : getFloat d.electricity = none) :
    aggregate d = none := by
  cases ht : getFloat d.transport with
  | none => exact aggregate_none_t ht
  | some t =>
    simp [aggregate, calculate_footprint, footprintBody,
      floatExc_ok ht, floatExc_err he]

lemma aggregate_none_w {d : Form} (hw : getFloat d.waste = none) :
    aggregate d = none := by
  cases ht : getFloat d.transport with
  | none => exact aggregate_none_t ht
  | some t =>
    cases he : getFloat d.electricity with
    | none => exact aggregate_none_e he
    | some e =>
      simp [aggregate, calculate_footprint, footprintBody,
        floatExc_ok ht, floatExc_ok he, floatExc_err hw]

lemma footprintBody_error_cases (d : Form) :
    (∃ r, footprintBody d = .ok r) ∨ footprintBody d = .error .valueError := by
  cases ht : getFloat d.transport with
  | none => exact .inr (by simp [footprintBody, floatExc_err ht])
  | some t =>
    cases he : getFloat d.electricity with
    | none => exact .inr (by simp [footprintBody, floatExc_ok ht, floatExc_err he])
    | some e =>
      cases hw : getFloat d.waste with
      | none =>
        exact .inr (by
          simp [footprintBody, floatExc_ok ht, floatExc_ok he, floatExc_err hw])
      | some w => exact .inl ⟨_, footprintBody_ok ht he hw⟩

lemma calculate_footprint_ok (d : Form) :
    calculate_footprint d = .ok (aggregate d) := by
  rcases footprintBody_error_cases d with ⟨r, hr⟩ | hr <;>
    simp [calculate_footprint, aggregate, hr]

lemma aggregate_inv {d : Form} {t e w tot : PyFloat}
    (h : aggregate d = some (t, e, w, tot)) :
    getFloat d.transport = some t ∧ getFloat d.electricity = some e ∧
      getFloat d.waste = some w ∧ tot = pyAdd (pyAdd t e) w := by
  cases ht : getFloat d.transport with
  | none => rw [aggregate_none_t ht] at h; exact absurd h (by simp)
  | some t0 =>
    cases he : getFloat d.electricity with
    | none => rw [aggregate_none_e he] at h; exact absurd h (by simp)
    | some e0 =>
      cases hw : getFloat d.waste with
      | none => rw [aggregate_none_w hw] at h; exact absurd h (by simp)
      | some w0 =>
        rw [aggregate_of_parses d ht he hw] at h
        simp only [Option.some.injEq, Prod.mk.injEq] at h
        obtain ⟨h1, h2, h3, h4⟩ := h
        subst h1; subst h2; subst h3; subst h4
        exact ⟨rfl, rfl, rfl, rfl⟩

lemma serveResultN_const (a : ResultArgs) (c : Bool) (n : ℕ) (s : Unit) :
    serveResultN a c n s = result_route a c := by
  induction n with
  | zero => rfl
  | succ k ih => exact ih

/-- C1: for every mapping whose transport, electricity and waste values
are strings parsing to non-negative finite floats t, e, w,
calculate_footprint returns a success outcome whose three fields equal
t, e, w and whose total equals t + e + w exactly. -/
theorem C1_nonneg_finite_success (st se sw : String) (t e w : ℚ)
    (ht : pythonFloat st = some (PyFloat.finite t)) (htn : 0 ≤ t)
    (he : pythonFloat se = some (PyFloat.finite e)) (hen : 0 ≤ e)
    (hw : pythonFloat sw = some (PyFloat.finite w)) (hwn : 0 ≤ w) :
    aggregate ⟨some st, some se, some sw⟩ =
      some (.finite t, .finite e, .finite w, .finite (t + e + w)) := by
  have ht2 : getFloat (some st) = some (PyFloat.finite t) := ht
  have he2 : getFloat (some se) = some (PyFloat.finite e) := he
  have hw2 : getFloat (some sw) = some (PyFloat.finite w) := hw
  exact aggregate_of_parses ⟨some st, some se, some sw⟩ ht2 he2 hw2

/-- C1 witness: the all-zero triple (0,0,0) succeeds with total 0 and is
not an error. -/
theorem C1_nonneg_finite_success_witness :
    pythonFloat "0" = some (PyFloat.finite 0) ∧
    aggregate ⟨some "0", some "0", some "0"⟩ =
      some (.finite 0, .finite 0, .finite 0, .finite (0 + 0 + 0)) :=
  ⟨by decide,
   C1_nonneg_finite_success "0" "0" "0" 0 0 0 (by decide) (le_refl 0)
     (by decide) (le_refl 0) (by decide) (le_refl 0)⟩

/-- C2: if at least one of the three fields is present but does not
parse as a float, calculate_footprint returns None (never a partial
sum) and the index route renders the fixed message
"Invalid input values.". -/
theorem C2_parse_failure (d : Form)
    (h : (∃ s, d.transport = some s ∧ pythonFloat s = none) ∨
         (∃ s, d.electricity = some s ∧ pythonFloat s = none) ∨
         (∃ s, d.waste = some s ∧ pythonFloat s = none)) :
    aggregate d = none ∧
      index_post d = .formWithError "Invalid input values." := by
  have hnone : aggregate d = none := by
    rcases h with ⟨s, hs, hp⟩ | ⟨s, hs, hp⟩ | ⟨s, hs, hp⟩
    · exact aggregate_none_t (by rw [hs]; exact hp)
    · exact aggregate_none_e (by rw [hs]; exact hp)
    · exact aggregate_none_w (by rw [hs]; exact hp)
  exact ⟨hnone, by simp [index_post, hnone]⟩

/-- C2 witness: a non-numeric transport value yields the fixed
invalid-input message. -/
theorem C2_parse_failure_witness :
    aggregate ⟨some "abc", some "0", some "0"⟩ = none ∧
      index_post ⟨some "abc", some "0", some "0"⟩ =
        .formWithError "Invalid input values." :=
  C2_parse_failure ⟨some "abc", some "0", some "0"⟩
    (.inl ⟨"abc", rfl, by decide⟩)

/-- C3 counterexample: GET /result trusts the total query parameter, so
a request with total=99 but components 1,1,1 renders total 99, which is
not the sum of the components. -/
theorem C3_result_route_total_counterexample :
    result_route ⟨some "1", some "1", some "1", some "99"⟩ false =
      .page (makeChart (.finite 1) (.finite 1) (.finite 1)) (.finite 99) ∧
    PyFloat.finite 99 ≠ pyAdd (pyAdd (.finite 1) (.finite 1)) (.finite 1) := by
  constructor
  · rfl
  · simp only [pyAdd, ne_eq, PyFloat.finite.injEq]
    norm_num

/-- C3 amended: every FootprintResult produced by calculate_footprint
has total equal to the exact sum of its three components; the result
route, however, renders the total query parameter as given, which need
not equal the sum of the other three parameters. -/
theorem C3_total_is_exact_sum (d : Form) (t e w tot : PyFloat)
    (h : aggregate d = some (t, e, w, tot)) :
    tot = pyAdd (pyAdd t e) w :=
  (aggregate_inv h).2.2.2

/-- C3 witness: aggregating 1, 2, 3 yields total 6 = 1 + 2 + 3. -/
theorem C3_total_is_exact_sum_witness :
    aggregate ⟨some "1", some "2", some "3"⟩ =
      some (.finite 1, .finite 2, .finite 3, .finite 6) ∧
    PyFloat.finite 6 =
      pyAdd (pyAdd (PyFloat.finite 1) (PyFloat.finite 2)) (PyFloat.finite 3) := by
  have h : aggregate ⟨some "1", some "2", some "3"⟩ =
      some (.finite 1, .finite 2, .finite 3, .finite 6) := by
    with_unfolding_all rfl
  exact ⟨h, C3_total_is_exact_sum ⟨some "1", some "2", some "3"⟩
    (.finite 1) (.finite 2) (.finite 3) (.finite 6) h⟩

/-- C4 counterexample: when chart generation fails, the result route
shows "Error in generating the result.", which is a different message
from the invalid-input message "Invalid input values.". -/
theorem C4_distinct_messages_counterexample :
    result_route ⟨some "1", some "1", some "1", some "3"⟩ true =
      .formWithError "Error in generating the result." ∧
    "Error in generating the result." ≠ "Invalid input values." := by
  exact ⟨rfl, by decide⟩

/-- C4 amended: any failure inside the result route's try block — a
query-parameter parse failure or the chart generation raising — is
caught and mapped to the fixed message "Error in generating the
result." (distinct from the invalid-input message), never propagated
as an internal fault. -/
theorem C4_presentation_failure_caught (a : ResultArgs) :
    result_route a true = .formWithError "Error in generating the result." := by
  unfold result_route
  cases getFloat a.transport <;> cases getFloat a.electricity <;>
    cases getFloat a.waste <;> cases getFloat a.total <;> simp

/-- C5: absent fields default to the literal 0 and aggregation succeeds
whenever the present fields parse. -/
theorem C5_missing_defaults_zero (d : Form)
    (ht : (getFloat d.transport).isSome) (he : (getFloat d.electricity).isSome)
    (hw : (getFloat d.waste).isSome) :
    ∃ t e w, aggregate d = some (t, e, w, pyAdd (pyAdd t e) w) ∧
      (d.transport = none → t = .finite 0) ∧
      (d.electricity = none → e = .finite 0) ∧
      (d.waste = none → w = .finite 0) := by
  obtain ⟨t, ht2⟩ := Option.isSome_iff_exists.mp ht
  obtain ⟨e, he2⟩ := Option.isSome_iff_exists.mp he
  obtain ⟨w, hw2⟩ := Option.isSome_iff_exists.mp hw
  refine ⟨t, e, w, aggregate_of_parses d ht2 he2 hw2, ?_, ?_, ?_⟩
  · intro h0; rw [h0] at ht2
    exact (Option.some.inj ht2).symm
  · intro h0; rw [h0] at he2
    exact (Option.some.inj he2).symm
  · intro h0; rw [h0] at hw2
    exact (Option.some.inj hw2).symm

/-- C5 witness: aggregate over only electricity = "5" succeeds with
transport = 0, waste = 0, total = 5. -/
theorem C5_missing_defaults_zero_witness :
    (∃ t e w, aggregate ⟨none, some "5", none⟩ =
        some (t, e, w, pyAdd (pyAdd t e) w) ∧
      ((none : Option String) = none → t = PyFloat.finite 0) ∧
      ((some "5" : Option String) = none → e = PyFloat.finite 0) ∧
      ((none : Option String) = none → w = PyFloat.finite 0)) ∧
    aggregate ⟨none, some "5", none⟩ =
      some (.finite 0, .finite 5, .finite 0, .finite 5) := by
  constructor
  · exact C5_missing_defaults_zero ⟨none, some "5", none⟩
      (by decide) (by decide) (by decide)
  · with_unfolding_all rfl

/-- C6 counterexample: the string "inf" parses, so aggregation succeeds
with a non-finite transport value; success does not imply finiteness. -/
theorem C6_success_not_finite_counterexample :
    aggregate ⟨some "inf", some "0", some "0"⟩ =
      some (.posInf, .finite 0, .finite 0, .posInf) ∧
    isFinite PyFloat.posInf = false :=
  ⟨rfl, rfl⟩

/-- C6 amended: every success outcome of calculate_footprint has all
three fields parseable as floats (each field is exactly the parse of
its input, defaulting to 0 when absent); the parsed values may be
infinite or NaN, since finiteness is not validated. -/
theorem C6_success_fields_parseable (d : Form) (t e w tot : PyFloat)
    (h : aggregate d = some (t, e, w, tot)) :
    getFloat d.transport = some t ∧ getFloat d.electricity = some e ∧
      getFloat d.waste = some w := by
  obtain ⟨h1, h2, h3, _⟩ := aggregate_inv h
  exact ⟨h1, h2, h3⟩

/-- C6 witness: a concrete success whose fields are recovered by the
parser. -/
theorem C6_success_fields_parseable_witness :
    aggregate ⟨some "1", some "1", some "1"⟩ =
      some (.finite 1, .finite 1, .finite 1, .finite 3) ∧
    (getFloat (some "1") = some (PyFloat.finite 1) ∧
      getFloat (some "1") = some (PyFloat.finite 1) ∧
      getFloat (some "1") = some (PyFloat.finite 1)) := by
  have h : aggregate ⟨some "1", some "1", some "1"⟩ =
      some (.finite 1, .finite 1, .finite 1, .finite 3) := by
    with_unfolding_all rfl
  exact ⟨h, C6_success_fields_parseable ⟨some "1", some "1", some "1"⟩
    (.finite 1) (.finite 1) (.finite 1) (.finite 3) h⟩

/-- C7: the bar chart always has exactly three bars labeled Transport,
Electricity, Waste, in that fixed order, with values equal to the three
components, for any component values. -/
theorem C7_chart_fixed_order (t e w : PyFloat) :
    (makeChart t e w).map Prod.fst = ["Transport", "Electricity", "Waste"] ∧
    (makeChart t e w).map Prod.snd = [t, e, w] ∧
    (makeChart t e w).length = 3 :=
  ⟨rfl, rfl, rfl⟩

/-- C8: re-requesting GET /result with the same query parameters any
number of times against the app's (empty) cross-request state produces
the same total every time. -/
theorem C8_result_idempotent (a : ResultArgs) (c : Bool) (n m : ℕ)
    (s1 s2 : Unit) :
    responseTotal (serveResultN a c n s1) =
      responseTotal (serveResultN a c m s2) := by
  rw [serveResultN_const, serveResultN_const]

/-- C9: calculate_footprint always returns normally — the only
exceptions its body can raise are parse failures, and those are caught —
so no exception ever propagates to the caller. -/
theorem C9_total_no_exception (d : Form) :
    ∃ o, calculate_footprint d = Except.ok o :=
  ⟨aggregate d, calculate_footprint_ok d⟩

/-- C10: calculate_footprint performs no non-negativity check — any
mapping whose fields parse, including strictly negative values, yields
a success outcome carrying those values and their (possibly negative)
sum. -/
theorem C10_no_nonneg_check (d : Form) (t e w : PyFloat)
    (ht : getFloat d.transport = some t) (he : getFloat d.electricity = some e)
    (hw : getFloat d.waste = some w) :
    aggregate d = some (t, e, w, pyAdd (pyAdd t e) w) :=
  aggregate_of_parses d ht he hw

/-- C10 witness: negative inputs -5, -3, 0 succeed with the negative
total -8. -/
theorem C10_no_nonneg_check_witness :
    aggregate ⟨some "-5", some "-3", some "0"⟩ =
      some (.finite (-5), .finite (-3), .finite 0, .finite (-8)) ∧
    (-8 : ℚ) < 0 := by
  constructor
  · have h := C10_no_nonneg_check ⟨some "-5", some "-3", some "0"⟩
      (.finite (-5)) (.finite (-3)) (.finite 0)
      (by with_unfolding_all rfl) (by with_unfolding_all rfl)
      (by with_unfolding_all rfl)
    exact h.trans (by with_unfolding_all rfl)
  · norm_num

end EcoFootprint
